import Mathlib

/-!
Shallow embedding of the coordination core of `image-editor.js`
(the `SpritefulImageEditor` custom element): the readiness computation,
the save/delete/deleteAll lifecycle orchestration, the targeted
field-delete synchronization, and the event/notification behaviour.

External collaborator calls (spinner, document store, file uploader,
toast messages) are modelled as entries of an observable action trace;
the possible outcomes of each awaited fallible call are supplied by a
small oracle structure (a "world"), so each method becomes a pure
function from component state and world to a trace plus a result.
-/

/-- One file record, as produced by the file-uploader collaborator.
Only the fields the verified properties inspect are carried; the
`optimized` field is `none` when the key is absent from the record and
`some v` when the key is present with string value `v`. -/
structure FileRecord where
  coll : String := ""
  doc : String := ""
  filename : String := ""
  name : String := ""
  optimized : Option String := none
  original : Option String := none
  thumbnail : Option String := none
deriving Repr, DecidableEq

/-- A FileRecordSet: the mapping from unique file name to record,
modelled as an association list (the order of `Object.values` is
irrelevant to every property proved here). -/
abbrev FileRecordSet := List (String × FileRecord)

/-- Component state: the configured properties and the internally held
record set `_data` (initial value is the empty object). -/
structure ImageEditor where
  coll : String
  doc : String
  field : String := "images"
  multiple : Bool := false
  _data : FileRecordSet := []
deriving Repr, DecidableEq

/-- Translation of `__computeReady(data)`: `false` when `data` is
null/undefined, `false` when `Object.values(data)` is empty, otherwise
`values.every(obj => 'optimized' in obj)` — a presence check on the
`optimized` key, regardless of its value. -/
def __computeReady (data : Option FileRecordSet) : Bool :=
  match data with
  | none => false
  | some d =>
    let values := d.map Prod.snd
    if values.length = 0 then false
    else values.all (fun obj => obj.optimized.isSome)

/-- Translation of `__computeTempColl(coll)`. -/
def __computeTempColl (coll : String) : String :=
  coll ++ "-editor-temp"

/-- The readiness predicate exactly as the spec sentence of claim C1
words it: the set is non-empty and every record has a non-empty
`optimized` field (key present with a value other than the empty
string). Written only to be compared against `__computeReady`. -/
def specReady (d : FileRecordSet) : Bool :=
  decide (0 < d.length) &&
    d.all (fun p =>
      match p.2.optimized with
      | some s => !(s = "")
      | none => false)

/-- Resolution value of a collaborator promise, as seen by a caller:
`undefined` or a file record. -/
inductive JSValue where
  | undef
  | record (r : FileRecord)
deriving Repr, DecidableEq

/-- Observable actions: every external call the component makes, plus
fired events, toast messages and console logging. -/
inductive Act where
  | spinnerShow (msg : String)
  | spinnerHide
  | storeSet (coll doc : String) (data : List (String × FileRecordSet))
  | storeDeleteField (coll doc fieldPath : String)
  | uploaderDelete (name : String)
  | uploaderDeleteAll
  | message (text : String)
  | fire (eventName : String) (payload : Option Bool)
  | schedule
  | warn (text : String)
  | consoleError
deriving Repr, DecidableEq

/-- Translation of `__delete(name)`: a targeted field delete through
`services.deleteField` with field path `` `${this.field}.${name}` ``. -/
def __delete (c : ImageEditor) (name : String) : List Act :=
  [Act.storeDeleteField c.coll c.doc (c.field ++ "." ++ name)]

/-- Translation of `__fileDeleted(event)`: invoked whenever the
file-uploader fires its file-deleted event; forwards the deleted name
to `__delete`. -/
def __fileDeleted (c : ImageEditor) (name : String) : List Act :=
  __delete c name

/-- Translation of `__save()`: `services.set` with the mapping
`{ [this.field]: this._data }` at `(this.coll, this.doc)`. -/
def __save (c : ImageEditor) : Act :=
  Act.storeSet c.coll c.doc [(c.field, c._data)]

/-- Translation of `__fileDataChanged(event)`: replaces the internally
held record set with the event payload. -/
def __fileDataChanged (c : ImageEditor) (detail : FileRecordSet) : ImageEditor :=
  { c with _data := detail }

/-- Collaborator state of the file-uploader sub-widget: the record set
it currently owns. -/
structure UploaderState where
  data : FileRecordSet
deriving Repr, DecidableEq

/-- Translation of `getData()`: returns `this.$.uploader.getData()` and
leaves the component state untouched. -/
def getData (c : ImageEditor) (u : UploaderState) : FileRecordSet × ImageEditor :=
  (u.data, c)

/-- Outcomes of the awaited fallible calls inside `save()`: whether
`spinner.show`, `services.set`, the `warn` toast and `spinner.hide`
resolve. -/
structure SaveWorld where
  showOk : Bool
  setOk : Bool
  warnOk : Bool
  hideOk : Bool
deriving Repr, DecidableEq

/-- The `try` block of `save()`: show the spinner, perform the store
write, then (on success) toast the confirmation, fire the
save-complete event and yield once. Returns the attempted actions and
whether the block completed without throwing. -/
def saveBody (c : ImageEditor) (w : SaveWorld) : List Act × Bool :=
  if !w.showOk then ([Act.spinnerShow "Saving..."], false)
  else if !w.setOk then ([Act.spinnerShow "Saving...", __save c], false)
  else
    ([Act.spinnerShow "Saving...", __save c,
      Act.message ((if c.multiple then "Images" else "Image") ++ " saved."),
      Act.fire "image-editor-save-complete" none,
      Act.schedule], true)

/-- Translation of `save()`: try body, `catch` that logs and warns, and
a `finally` block whose `return this.$.spinner.hide()` makes the hide
promise the method's resolution on every path (so an error thrown in
the body or in `catch` never propagates to the caller). -/
def save (c : ImageEditor) (w : SaveWorld) : List Act × Except String JSValue :=
  let tr := (saveBody c w).1
  let tr2 := if (saveBody c w).2 then tr
    else tr ++ [Act.consoleError, Act.warn "Sorry, an unexpected error occured!"]
  (tr2 ++ [Act.spinnerHide],
   if w.hideOk then Except.ok JSValue.undef else Except.error "hide rejected")

/-- Outcomes of the awaited fallible calls inside `delete(name)` and
`deleteAll()`: whether `spinner.show`, the uploader call, the `warn`
toast and `spinner.hide` resolve, and the record the uploader's delete
resolves with when it succeeds. -/
structure DeleteWorld where
  showOk : Bool
  deleteOk : Bool
  deletedRecord : FileRecord
  warnOk : Bool
  hideOk : Bool
deriving Repr, DecidableEq

/-- The `try` block of `delete(name)`. The record the uploader resolves
with is awaited but never bound, exactly as in the source. -/
def deleteBody (c : ImageEditor) (name : String) (w : DeleteWorld) : List Act × Bool :=
  if !w.showOk then
    ([Act.spinnerShow ("Deleting " ++ name ++ " image...")], false)
  else if !w.deleteOk then
    ([Act.spinnerShow ("Deleting " ++ name ++ " image..."),
      Act.uploaderDelete name], false)
  else
    ([Act.spinnerShow ("Deleting " ++ name ++ " image..."),
      Act.uploaderDelete name,
      Act.message (name ++ " image deleted."),
      Act.schedule], true)

/-- Translation of `delete(name)`: try body, `catch` that logs and
warns, and a `finally` whose `return this.$.spinner.hide()` is the
method's resolution on every path — the deleted record is discarded. -/
def «delete» (c : ImageEditor) (name : String) (w : DeleteWorld) :
    List Act × Except String JSValue :=
  let tr := (deleteBody c name w).1
  let tr2 := if (deleteBody c name w).2 then tr
    else tr ++ [Act.consoleError,
      Act.warn "Sorry, an error occured while trying to delete the image!"]
  (tr2 ++ [Act.spinnerHide],
   if w.hideOk then Except.ok JSValue.undef else Except.error "hide rejected")

/-- The `try` block of `deleteAll()`. -/
def deleteAllBody (c : ImageEditor) (w : DeleteWorld) : List Act × Bool :=
  if !w.showOk then ([Act.spinnerShow "Deleting images..."], false)
  else if !w.deleteOk then
    ([Act.spinnerShow "Deleting images...", Act.uploaderDeleteAll], false)
  else
    ([Act.spinnerShow "Deleting images...", Act.uploaderDeleteAll,
      Act.message "Images deleted.",
      Act.schedule], true)

/-- Translation of `deleteAll()`: same shape as `delete`, with the
pluralized messages and the uploader's bulk delete. -/
def deleteAll (c : ImageEditor) (w : DeleteWorld) :
    List Act × Except String JSValue :=
  let tr := (deleteAllBody c w).1
  let tr2 := if (deleteAllBody c w).2 then tr
    else tr ++ [Act.consoleError,
      Act.warn "Sorry, an error occured while trying to delete images!"]
  (tr2 ++ [Act.spinnerHide],
   if w.hideOk then Except.ok JSValue.undef else Except.error "hide rejected")

/-- Outcome of the `this.clicked()` debounce guard inside the
save-button handler: resolves, rejects with the string
`click debounced`, or rejects with some other error. -/
inductive ClickOutcome where
  | ok
  | debounced
  | failure
deriving Repr, DecidableEq

/-- Translation of `__saveBtnClicked()`: await the debounce guard, then
`save()`; the `catch` silently returns when the error is the debounce
marker and logs it to the console otherwise. -/
def __saveBtnClicked (c : ImageEditor) (click : ClickOutcome) (w : SaveWorld) :
    List Act :=
  match click with
  | ClickOutcome.debounced => []
  | ClickOutcome.failure => [Act.consoleError]
  | ClickOutcome.ok =>
    match (save c w).2 with
    | Except.ok _ => (save c w).1
    | Except.error _ => (save c w).1 ++ [Act.consoleError]

/-- Modelled from the spec: the reactive property system's observer
dispatch for the computed `_ready` property (the `observers` wiring of
`__readyChanged(_ready)` lives in the host framework, not in the
source file). Per the spec, the readiness-changed event is "fired every
time the Readiness Tracker's boolean output changes value (including
the initial computation), carrying the new boolean": this function
folds a sequence of `_data` replacements, recomputes readiness with
`__computeReady`, and records a fired value exactly when it differs
from the previous one. -/
def readyFires (prev : Bool) : List (Option FileRecordSet) → List Bool
  | [] => []
  | d :: rest =>
    let r := __computeReady d
    if r = prev then readyFires prev rest
    else r :: readyFires r rest

/-- Modelled from the spec: the full sequence of readiness-changed
event payloads, starting with the initial computation over the initial
empty record set and then processing each `_data` replacement. -/
def readyTrace (updates : List (Option FileRecordSet)) : List Bool :=
  __computeReady (some []) :: readyFires (__computeReady (some [])) updates

/-- A concrete component configuration used by closed witness and
counterexample statements. -/
def cEx : ImageEditor := { coll := "cms", doc := "home" }

/-- A save world where every awaited call resolves. -/
def wSaveOk : SaveWorld :=
  { showOk := true, setOk := true, warnOk := true, hideOk := true }

/-- A save world where the spinner resolves but the store write throws. -/
def wSetFail : SaveWorld :=
  { showOk := true, setOk := false, warnOk := true, hideOk := true }

/-- A record whose `optimized` key is present but holds the empty
string. -/
def recEmptyOpt : FileRecord := { name := "a", optimized := some "" }

/-- A fully processed record. -/
def recA : FileRecord := { name := "a", optimized := some "url" }

/-- A delete world where every awaited call resolves and the uploader
resolves with `recA`. -/
def wDelOk : DeleteWorld :=
  { showOk := true, deleteOk := true, deletedRecord := recA,
    warnOk := true, hideOk := true }

/-- Helper: every execution of `save` hides the spinner exactly once,
for every outcome of the awaited calls. -/
theorem save_count_spinnerHide (c : ImageEditor) (w : SaveWorld) :
    ((save c w).1).count Act.spinnerHide = 1 := by
  rcases w with ⟨sh, st, wa, hi⟩
  cases sh <;> cases st <;>
    simp [save, saveBody, __save, List.count_append, List.count_cons]

/-- Helper: `List.all` over the values of an association list. -/
theorem all_map_snd (l : FileRecordSet) (f : FileRecord → Bool) :
    (l.map Prod.snd).all f = l.all (fun p => f p.2) := by
  induction l with
  | nil => rfl
  | cons p l ih => simp [ih]

/-- C1 counterexample: a set holding one record whose `optimized` key
is present but empty makes `__computeReady` return `true`, while the
claim's predicate (a non-empty `optimized` field) calls it not ready. -/
theorem c1_claim_counterexample :
    __computeReady (some [("a", recEmptyOpt)]) = true ∧
      specReady [("a", recEmptyOpt)] = false := by
  constructor <;> rfl

/-- C1 (amended): `__computeReady` returns `true` exactly when the set
is non-empty and every record has the `optimized` key present — the
value under the key is not inspected; a null/undefined set and the
empty set are not ready. -/
theorem c1_ready_characterization :
    (∀ d : FileRecordSet,
      __computeReady (some d) =
        (decide (d ≠ []) && d.all (fun p => p.2.optimized.isSome))) ∧
    __computeReady none = false ∧
    __computeReady (some []) = false := by
  refine ⟨?_, rfl, rfl⟩
  intro d
  cases d with
  | nil => rfl
  | cons p l =>
    simp [__computeReady, all_map_snd]

/-- C6: whenever the uploader reports a single file deleted with name
`n`, the component immediately issues exactly one targeted field
delete at `(coll, doc)` with field path `field ++ "." ++ n`, and
nothing else — in particular no bulk `storeSet`. -/
theorem c6_file_deleted_targeted_delete (c : ImageEditor) (n : String) :
    __fileDeleted c n =
      [Act.storeDeleteField c.coll c.doc (c.field ++ "." ++ n)] := rfl

/-- C4: every invocation of `save` hides the busy indicator exactly
once, and the hide is the last action of the invocation, whether the
store call succeeds or throws. -/
theorem c4_save_always_hides_spinner (c : ImageEditor) (w : SaveWorld) :
    ((save c w).1).count Act.spinnerHide = 1 ∧
      ((save c w).1).getLast? = some Act.spinnerHide := by
  refine ⟨save_count_spinnerHide c w, ?_⟩
  rcases w with ⟨sh, st, wa, hi⟩
  cases sh <;> cases st <;>
    simp [save, saveBody, __save, List.getLast?_concat]

/-- C2: when the spinner resolves and the store write succeeds, `save`
performs exactly the write of the mapping from the configured field to
the internally held record set at `(coll, doc)`, shows the
confirmation message matching the multi-file mode, and fires the
save-complete event exactly once. -/
theorem c2_save_success (c : ImageEditor) (w : SaveWorld)
    (hshow : w.showOk = true) (hset : w.setOk = true) :
    (save c w).1 =
      [Act.spinnerShow "Saving...",
       Act.storeSet c.coll c.doc [(c.field, c._data)],
       Act.message (if c.multiple then "Images saved." else "Image saved."),
       Act.fire "image-editor-save-complete" none,
       Act.schedule,
       Act.spinnerHide] ∧
    ((save c w).1).count (Act.fire "image-editor-save-complete" none) = 1 := by
  cases hm : c.multiple <;>
    simp [save, saveBody, __save, hshow, hset, hm, List.count_cons]

/-- C2 witness: the success theorem applied to the concrete component
and the all-resolving world. -/
theorem c2_save_success_witness :
    wSaveOk.showOk = true ∧ wSaveOk.setOk = true ∧
      ((save cEx wSaveOk).1 =
        [Act.spinnerShow "Saving...",
         Act.storeSet cEx.coll cEx.doc [(cEx.field, cEx._data)],
         Act.message (if cEx.multiple then "Images saved." else "Image saved."),
         Act.fire "image-editor-save-complete" none,
         Act.schedule,
         Act.spinnerHide] ∧
      ((save cEx wSaveOk).1).count (Act.fire "image-editor-save-complete" none) = 1) :=
  ⟨rfl, rfl, c2_save_success cEx wSaveOk rfl rfl⟩

/-- C3 counterexample: at a concrete failing store write the handler
warns with the source's misspelled text, so no warning with the
claim's text `Sorry, an unexpected error occurred!` is ever shown. -/
theorem c3_claim_counterexample :
    Act.warn "Sorry, an unexpected error occurred!" ∉ (save cEx wSetFail).1 ∧
      Act.warn "Sorry, an unexpected error occured!" ∈ (save cEx wSetFail).1 := by
  constructor <;> decide

/-- C3 (amended): when the spinner resolves, the store write throws and
the hide resolves, `save` logs the error, warns with the text
`Sorry, an unexpected error occured!` (as spelled in the source),
fires no save-complete event, and resolves normally — the error is
not rethrown to the caller. -/
theorem c3_save_failure (c : ImageEditor) (w : SaveWorld)
    (hshow : w.showOk = true) (hset : w.setOk = false)
    (hhide : w.hideOk = true) :
    (save c w).1 =
      [Act.spinnerShow "Saving...",
       Act.storeSet c.coll c.doc [(c.field, c._data)],
       Act.consoleError,
       Act.warn "Sorry, an unexpected error occured!",
       Act.spinnerHide] ∧
    ((save c w).1).count (Act.fire "image-editor-save-complete" none) = 0 ∧
    (save c w).2 = Except.ok JSValue.undef := by
  refine ⟨?_, ?_, ?_⟩ <;>
    simp [save, saveBody, __save, hshow, hset, hhide, List.count_cons]

/-- C3 witness: the failure theorem applied to the concrete component
and the store-write-failing world. -/
theorem c3_save_failure_witness :
    wSetFail.showOk = true ∧ wSetFail.setOk = false ∧ wSetFail.hideOk = true ∧
      ((save cEx wSetFail).1 =
        [Act.spinnerShow "Saving...",
         Act.storeSet cEx.coll cEx.doc [(cEx.field, cEx._data)],
         Act.consoleError,
         Act.warn "Sorry, an unexpected error occured!",
         Act.spinnerHide] ∧
      ((save cEx wSetFail).1).count (Act.fire "image-editor-save-complete" none) = 0 ∧
      (save cEx wSetFail).2 = Except.ok JSValue.undef) :=
  ⟨rfl, rfl, rfl, c3_save_failure cEx wSetFail rfl rfl rfl⟩

/-- C5: at a fully successful concrete `delete` invocation the method
resolves with the spinner-hide value (undefined) and not with any file
record: the `finally` return discards the record the uploader resolved
with, although the uploader's delete was delegated exactly once. -/
theorem c5_delete_discards_record :
    («delete» cEx "a" wDelOk).2 = Except.ok JSValue.undef ∧
      (∀ r : FileRecord, («delete» cEx "a" wDelOk).2 ≠ Except.ok (JSValue.record r)) ∧
      ((«delete» cEx "a" wDelOk).1).count (Act.uploaderDelete "a") = 1 := by
  refine ⟨rfl, ?_, by decide⟩
  intro r
  simp [«delete», deleteBody, wDelOk]

/-- C9: `delete` and `deleteAll` never reject: for every outcome of the
spinner, uploader and warn calls, both methods resolve (with the value
returned from the `finally` block) provided the spinner-hide itself
resolves. -/
theorem c9_delete_never_rejects (c : ImageEditor) (n : String)
    (w : DeleteWorld) (h : w.hideOk = true) :
    («delete» c n w).2 = Except.ok JSValue.undef ∧
      (deleteAll c w).2 = Except.ok JSValue.undef := by
  constructor <;> simp [«delete», deleteAll, h]

/-- C9 witness: the never-rejects theorem applied to the concrete
component and the all-resolving delete world. -/
theorem c9_delete_never_rejects_witness :
    wDelOk.hideOk = true ∧
      ((«delete» cEx "a" wDelOk).2 = Except.ok JSValue.undef ∧
        (deleteAll cEx wDelOk).2 = Except.ok JSValue.undef) :=
  ⟨rfl, c9_delete_never_rejects cEx "a" wDelOk rfl⟩

/-- C7: a pair of save-button clicks inside the debounce window runs
`save` exactly once (witnessed by exactly one spinner hide across both
invocations); the debounced invocation performs nothing at all — no
warning, no console log — while a click failing for any other reason
only logs to the console. -/
theorem c7_debounced_click (c : ImageEditor) (w : SaveWorld) :
    (__saveBtnClicked c ClickOutcome.ok w ++
        __saveBtnClicked c ClickOutcome.debounced w).count Act.spinnerHide = 1 ∧
      __saveBtnClicked c ClickOutcome.debounced w = [] ∧
      __saveBtnClicked c ClickOutcome.failure w = [Act.consoleError] := by
  refine ⟨?_, rfl, rfl⟩
  have h1 : (__saveBtnClicked c ClickOutcome.ok w).count Act.spinnerHide = 1 := by
    unfold __saveBtnClicked
    cases hres : (save c w).2 with
    | ok v => simpa using save_count_spinnerHide c w
    | error e =>
      simp [List.count_append, List.count_cons, save_count_spinnerHide c w]
  rw [List.count_append, h1]
  rfl

/-- Helper: the fired readiness values, prefixed with the previous
value, form exactly the adjacent-deduplication of the computed
readiness sequence. -/
theorem readyFires_eq_destutter (l : List (Option FileRecordSet)) :
    ∀ prev : Bool, prev :: readyFires prev l =
      List.destutter' (· ≠ ·) prev (l.map __computeReady) := by
  induction l with
  | nil => intro prev; simp [readyFires, List.destutter']
  | cons d rest ih =>
    intro prev
    simp only [readyFires, List.map_cons, List.destutter']
    by_cases h : __computeReady d = prev
    · subst h
      simp [ih]
    · rw [if_neg h, if_pos (Ne.symm h), ← ih (__computeReady d)]

/-- C8: the sequence of readiness-changed event payloads over any
sequence of record-set replacements is exactly the
adjacent-deduplication of the computed readiness values (one initial
fire, then one fire per boolean transition, each carrying the new
value), and in particular the event never fires twice in a row with
the same value. -/
theorem c8_ready_changed_fires_on_transitions
    (updates : List (Option FileRecordSet)) :
    readyTrace updates =
      List.destutter (· ≠ ·) (false :: updates.map __computeReady) ∧
    List.Chain' (· ≠ ·) (readyTrace updates) := by
  have h : readyTrace updates =
      List.destutter' (· ≠ ·) false (updates.map __computeReady) := by
    have h0 : __computeReady (some []) = false := rfl
    simpa [readyTrace, h0] using readyFires_eq_destutter updates false
  refine ⟨?_, ?_⟩
  · rw [h]; rfl
  · rw [h]
    exact List.destutter'_is_chain' _ _ _

/-- C10: `getData` returns the uploader collaborator's current record
set without reading or changing the component's own `_data` (the
result is unchanged when `_data` is replaced and the component state
is returned intact); `save` persists the internally held `_data`,
which only `__fileDataChanged` replaces; and the two sets can differ. -/
theorem c10_getData_frame (c : ImageEditor) (u : UploaderState)
    (d : FileRecordSet) :
    (getData c u).1 = u.data ∧
    (getData c u).2 = c ∧
    (getData (__fileDataChanged c d) u).1 = (getData c u).1 ∧
    Act.storeSet c.coll c.doc [(c.field, c._data)] ∈ (save c wSaveOk).1 ∧
    (__fileDataChanged c d)._data = d ∧
    (∃ c0 u0, (getData c0 u0).1 ≠ c0._data) := by
  refine ⟨rfl, rfl, rfl, ?_, rfl, ⟨cEx, ⟨[("a", recA)]⟩, by decide⟩⟩
  simp [save, saveBody, __save, wSaveOk]
